import Mathlib

/-!
Verification of the SuperH (SH) instruction-to-RzIL lifter
(`librz/analysis/arch/sh/sh_il.c`).

The lifter builds side-effect-explicit expression trees (RzIL).  We embed
the tree constructors used by `sh_il.c` as inductive types (`Pure` for
value expressions, `Effect` for state changes), translate the lifting
functions from the C source, and give the trees their standard semantics
through a small evaluator over an explicit machine state.
-/

namespace ShIL

/-- Runtime values of the IL: booleans and bitvectors (width, value).
Bitvector values are kept below `2 ^ width` by the evaluator. -/
inductive Val where
  | b : Bool → Val
  | bv : Nat → Nat → Val
deriving DecidableEq

/-- Pure (side-effect free) expression nodes, one constructor per RzIL
opbuilder macro used in `sh_il.c`.  `pnull` stands for a NULL
`RzILOpPure *` (the error result of the C helpers).  `DUP` in the C source
duplicates a subtree with value semantics, so it needs no constructor. -/
inductive Pure where
  | pnull : Pure
  | varg : String → Pure
  | varl : String → Pure
  | un : Nat → Nat → Pure
  | sn : Nat → Int → Pure
  | ite : Pure → Pure → Pure → Pure
  | pand : Pure → Pure → Pure
  | por : Pure → Pure → Pure
  | pxor : Pure → Pure → Pure
  | add : Pure → Pure → Pure
  | sub : Pure → Pure → Pure
  | mul : Pure → Pure → Pure
  | logand : Pure → Pure → Pure
  | logor : Pure → Pure → Pure
  | lognot : Pure → Pure
  | shiftl0 : Pure → Pure → Pure
  | shiftr0 : Pure → Pure → Pure
  | eq : Pure → Pure → Pure
  | ugt : Pure → Pure → Pure
  | ult : Pure → Pure → Pure
  | msb : Pure → Pure
  | nonZero : Pure → Pure
  | isZero : Pure → Pure
  | cast : Nat → Bool → Pure → Pure
  | loadw : Option Nat → Pure → Pure
deriving DecidableEq

/-- Effect nodes, one constructor per RzIL opbuilder macro used in
`sh_il.c`.  `enull` stands for a NULL `RzILOpEffect *`.
`cast len signed x` covers both `UNSIGNED(len, x)` (signed = false) and
`SIGNED(len, x)` (signed = true). -/
inductive Effect where
  | enull : Effect
  | setg : String → Pure → Effect
  | setl : String → Pure → Effect
  | seq : Effect → Effect → Effect
  | branch : Pure → Effect → Effect → Effect
  | storew : Pure → Pure → Effect
deriving DecidableEq

/-- SEQ2 of the opbuilder. -/
def SEQ2 (a b : Effect) : Effect := Effect.seq a b

/-- SEQ3 of the opbuilder, right-nested sequencing. -/
def SEQ3 (a b c : Effect) : Effect := Effect.seq a (Effect.seq b c)

/-- SEQ4 of the opbuilder, right-nested sequencing. -/
def SEQ4 (a b c d : Effect) : Effect := Effect.seq a (SEQ3 b c d)

/-- Machine state for evaluating lifted trees: global variables (the
architectural registers and status bits bound by the analysis driver),
instruction-local variables (`SETL`/`VARL`), and byte-addressed memory. -/
structure State where
  globals : String → Option Val
  locals : String → Option Val
  mem : Nat → Nat

/-- Update one global variable. -/
def updateG (s : State) (key : String) (v : Val) : State :=
  { s with globals := fun k => if k = key then some v else s.globals k }

/-- Update one local variable. -/
def updateL (s : State) (key : String) (v : Val) : State :=
  { s with locals := fun k => if k = key then some v else s.locals k }

/-- Two's-complement reading of a `w`-bit value. -/
def toSigned (w v : Nat) : Int :=
  if v < 2 ^ (w - 1) then (v : Int) else (v : Int) - 2 ^ w

/-- Big-endian read of `k` bytes starting at address `a`. -/
def readBytes (m : Nat → Nat) (a k : Nat) : Nat :=
  match k with
  | 0 => 0
  | k + 1 => (m a % 256) * 256 ^ k + readBytes m (a + 1) k

/-- Big-endian write of the `k` low bytes of `v` starting at address `a`. -/
def writeBytes (m : Nat → Nat) (a k v : Nat) : Nat → Nat :=
  match k with
  | 0 => m
  | k + 1 =>
    writeBytes (fun x => if x = a then v / 256 ^ k % 256 else m x) (a + 1) k v

/-- Conditional select over evaluated operands (selection discards the
branch not taken, so this agrees with lazy evaluation). -/
def vIte (c t f : Option Val) : Option Val :=
  match c with
  | some (.b true) => t
  | some (.b false) => f
  | _ => none

/-- Boolean/bitwise AND over values (the opbuilder AND). -/
def vAnd : Option Val → Option Val → Option Val
  | some (.b a), some (.b b) => some (.b (a && b))
  | some (.bv w a), some (.bv w2 b) =>
    if w = w2 then some (.bv w (a &&& b)) else none
  | _, _ => none

/-- Boolean/bitwise OR over values (the opbuilder OR). -/
def vOr : Option Val → Option Val → Option Val
  | some (.b a), some (.b b) => some (.b (a || b))
  | some (.bv w a), some (.bv w2 b) =>
    if w = w2 then some (.bv w (a ||| b)) else none
  | _, _ => none

/-- Boolean/bitwise XOR over values (the opbuilder XOR). -/
def vXor : Option Val → Option Val → Option Val
  | some (.b a), some (.b b) => some (.b (xor a b))
  | some (.bv w a), some (.bv w2 b) =>
    if w = w2 then some (.bv w (a ^^^ b)) else none
  | _, _ => none

/-- Bitvector addition modulo the width. -/
def vAdd : Option Val → Option Val → Option Val
  | some (.bv w a), some (.bv w2 b) =>
    if w = w2 then some (.bv w ((a + b) % 2 ^ w)) else none
  | _, _ => none

/-- Bitvector subtraction modulo the width (operands are in range). -/
def vSub : Option Val → Option Val → Option Val
  | some (.bv w a), some (.bv w2 b) =>
    if w = w2 then some (.bv w ((a + (2 ^ w - b)) % 2 ^ w)) else none
  | _, _ => none

/-- Bitvector multiplication modulo the width. -/
def vMul : Option Val → Option Val → Option Val
  | some (.bv w a), some (.bv w2 b) =>
    if w = w2 then some (.bv w ((a * b) % 2 ^ w)) else none
  | _, _ => none

/-- Bitwise AND of bitvectors (LOGAND). -/
def vLogAnd : Option Val → Option Val → Option Val
  | some (.bv w a), some (.bv w2 b) =>
    if w = w2 then some (.bv w (a &&& b)) else none
  | _, _ => none

/-- Bitwise OR of bitvectors (LOGOR). -/
def vLogOr : Option Val → Option Val → Option Val
  | some (.bv w a), some (.bv w2 b) =>
    if w = w2 then some (.bv w (a ||| b)) else none
  | _, _ => none

/-- Bitwise complement (LOGNOT). -/
def vLogNot : Option Val → Option Val
  | some (.bv w a) => some (.bv w (a ^^^ (2 ^ w - 1)))
  | _ => none

/-- Left shift filling with zeroes (SHIFTL0). -/
def vShiftL : Option Val → Option Val → Option Val
  | some (.bv w a), some (.bv _ n) => some (.bv w ((a <<< n) % 2 ^ w))
  | _, _ => none

/-- Right shift filling with zeroes (SHIFTR0). -/
def vShiftR : Option Val → Option Val → Option Val
  | some (.bv w a), some (.bv _ n) => some (.bv w (a >>> n))
  | _, _ => none

/-- Equality of two values of the same sort (EQ). -/
def vEq : Option Val → Option Val → Option Val
  | some (.b a), some (.b b) => some (.b (a == b))
  | some (.bv w a), some (.bv w2 b) =>
    if w = w2 then some (.b (decide (a = b))) else none
  | _, _ => none

/-- Unsigned greater-than (UGT). -/
def vUgt : Option Val → Option Val → Option Val
  | some (.bv w a), some (.bv w2 b) =>
    if w = w2 then some (.b (decide (b < a))) else none
  | _, _ => none

/-- Unsigned less-than (ULT). -/
def vUlt : Option Val → Option Val → Option Val
  | some (.bv w a), some (.bv w2 b) =>
    if w = w2 then some (.b (decide (a < b))) else none
  | _, _ => none

/-- Most significant bit of a bitvector (MSB). -/
def vMsb : Option Val → Option Val
  | some (.bv w a) => some (.b (Nat.testBit a (w - 1)))
  | _ => none

/-- Test against zero (NON_ZERO); a boolean tests itself. -/
def vNonZero : Option Val → Option Val
  | some (.bv _ a) => some (.b (decide (a ≠ 0)))
  | some (.b a) => some (.b a)
  | _ => none

/-- Test for zero (IS_ZERO); a boolean tests its negation. -/
def vIsZero : Option Val → Option Val
  | some (.bv _ a) => some (.b (decide (a = 0)))
  | some (.b a) => some (.b (!a))
  | _ => none

/-- Unsigned or signed cast to `len` bits (UNSIGNED/SIGNED): truncation
when narrowing, zero- or sign-extension when widening; an unsigned cast of
a boolean gives 0 or 1. -/
def vCast (len : Nat) (signed : Bool) : Option Val → Option Val
  | some (.bv w a) =>
    if signed then
      some (.bv len (Int.toNat (toSigned w a % (2 ^ len : Int))))
    else
      some (.bv len (a % 2 ^ len))
  | some (.b a) =>
    if signed then none else some (.bv len (if a then 1 else 0))
  | _ => none

/-- Memory load of `w` bits at a bitvector address (LOADW). -/
def vLoad (m : Nat → Nat) : Option Nat → Option Val → Option Val
  | some w, some (.bv _ addr) =>
    some (.bv w (readBytes m addr ((w + 7) / 8) % 2 ^ w))
  | _, _ => none

/-- Modelled from the spec: the downstream evaluator that executes the
emitted IL is out of scope of the excerpted sources, so the standard
semantics of the pure nodes is modelled here from the spec's data model
(register read, arithmetic/logical combination, conditional select, memory
load, sign/zero extension, bit test over bitvectors and booleans).
Arithmetic is modulo `2 ^ width`; a NULL expression, an undefined variable
or an ill-sorted combination has no value. -/
def evalPure (s : State) : Pure → Option Val
  | .pnull => none
  | .varg x => s.globals x
  | .varl x => s.locals x
  | .un w v => some (.bv w v)
  | .sn w i => some (.bv w (Int.toNat (i % (2 ^ w : Int))))
  | .ite c t f => vIte (evalPure s c) (evalPure s t) (evalPure s f)
  | .pand x y => vAnd (evalPure s x) (evalPure s y)
  | .por x y => vOr (evalPure s x) (evalPure s y)
  | .pxor x y => vXor (evalPure s x) (evalPure s y)
  | .add x y => vAdd (evalPure s x) (evalPure s y)
  | .sub x y => vSub (evalPure s x) (evalPure s y)
  | .mul x y => vMul (evalPure s x) (evalPure s y)
  | .logand x y => vLogAnd (evalPure s x) (evalPure s y)
  | .logor x y => vLogOr (evalPure s x) (evalPure s y)
  | .lognot x => vLogNot (evalPure s x)
  | .shiftl0 x y => vShiftL (evalPure s x) (evalPure s y)
  | .shiftr0 x y => vShiftR (evalPure s x) (evalPure s y)
  | .eq x y => vEq (evalPure s x) (evalPure s y)
  | .ugt x y => vUgt (evalPure s x) (evalPure s y)
  | .ult x y => vUlt (evalPure s x) (evalPure s y)
  | .msb x => vMsb (evalPure s x)
  | .nonZero x => vNonZero (evalPure s x)
  | .isZero x => vIsZero (evalPure s x)
  | .cast len signed x => vCast len signed (evalPure s x)
  | .loadw width a => vLoad s.mem width (evalPure s a)

/-- Selection of an executed branch arm by the condition value (selection
discards the arm not taken, so this agrees with lazy execution). -/
def eIte (c : Option Val) (t f : Option State) : Option State :=
  match c with
  | some (.b true) => t
  | some (.b false) => f
  | _ => none

/-- Memory store of an evaluated value at an evaluated address (STOREW). -/
def eStore (s : State) : Option Val → Option Val → Option State
  | some (.bv _ addr), some (.bv w val) =>
    some { s with mem := writeBytes s.mem addr ((w + 7) / 8) val }
  | _, _ => none

/-- Modelled from the spec: execution of effect trees by the out-of-scope
evaluator — register/local writes, sequencing, two-way branching on a pure
boolean, memory stores.  A NULL effect (`enull`) yields no state change,
matching the spec's "yields no effect" reading of the error paths. -/
def exec (s : State) : Effect → Option State
  | .enull => some s
  | .setg x p => (evalPure s p).map fun v => updateG s x v
  | .setl x p => (evalPure s p).map fun v => updateL s x v
  | .seq a b => (exec s a).bind fun s1 => exec s1 b
  | .branch c t f => eIte (evalPure s c) (exec s t) (exec s f)
  | .storew a v => eStore s (evalPure s a) (evalPure s v)

/-- Registers available as global variables in the IL
(`sh_global_registers` in the C source). -/
def sh_global_registers : List String :=
  ["r0b0", "r1b0", "r2b0", "r3b0", "r4b0", "r5b0", "r6b0", "r7b0",
   "r0b1", "r1b1", "r2b1", "r3b1", "r4b1", "r5b1", "r6b1", "r7b1",
   "r8", "r9", "r10", "r11", "r12", "r13", "r14", "r15", "pc",
   "sr", "gbr", "ssr", "spc", "sgr", "dbr", "vbr", "mach", "macl",
   "pr", "fpul", "fpscr",
   "fr0", "fr1", "fr2", "fr3", "fr4", "fr5", "fr6", "fr7",
   "fr8", "fr9", "fr10", "fr11", "fr12", "fr13", "fr14", "fr15",
   "xf0", "xf1", "xf2", "xf3", "xf4", "xf5", "xf6", "xf7",
   "xf8", "xf9", "xf10", "xf11", "xf12", "xf13", "xf14", "xf15"]

/-- All registers (`sh_registers` in the C source). -/
def sh_registers : List String :=
  ["r0", "r1", "r2", "r3", "r4", "r5", "r6", "r7",
   "r8", "r9", "r10", "r11", "r12", "r13", "r14", "r15", "pc",
   "sr", "gbr", "ssr", "spc", "sgr", "dbr", "vbr", "mach", "macl",
   "pr", "fpul", "fpscr",
   "fr0", "fr1", "fr2", "fr3", "fr4", "fr5", "fr6", "fr7",
   "fr8", "fr9", "fr10", "fr11", "fr12", "fr13", "fr14", "fr15",
   "xf0", "xf1", "xf2", "xf3", "xf4", "xf5", "xf6", "xf7",
   "xf8", "xf9", "xf10", "xf11", "xf12", "xf13", "xf14", "xf15"]

/-- Addressing modes of a parameter (`SHAddrMode`), with the names used by
the C source.  The enumeration itself lives in a header outside the
excerpted sources; only the names matter here, plus an invalid tag for the
C switch defaults. -/
inductive SHAddrMode where
  | SH_ADDR_INVALID
  | SH_REG_DIRECT
  | SH_REG_INDIRECT
  | SH_REG_INDIRECT_I
  | SH_REG_INDIRECT_D
  | SH_REG_INDIRECT_DISP
  | SH_REG_INDIRECT_INDEXED
  | SH_GBR_INDIRECT_DISP
  | SH_GBR_INDIRECT_INDEXED
  | SH_PC_RELATIVE_DISP
  | SH_PC_RELATIVE
  | SH_PC_RELATIVE_REG
  | SH_IMM_U
  | SH_IMM_S
deriving DecidableEq

/-- Parameter descriptor: addressing-mode tag plus the two mode-specific
operand fields (`param.param[0]`, `param.param[1]` in the C source). -/
structure SHParam where
  mode : SHAddrMode
  param0 : Nat
  param1 : Nat
deriving DecidableEq

/-- Operation record: the two parameter slots and the scaling tag
(the instruction-class tag is dispatched outside the functions we model). -/
structure SHOp where
  param0 : SHParam
  param1 : SHParam
  scaling : Nat
deriving DecidableEq

/-- Access `op->param[x]` of the operation record. -/
def SHOp.paramAt (op : SHOp) (x : Nat) : SHParam :=
  if x = 0 then op.param0 else op.param1

/-- Modelled from the spec: the `SHScaling` enumeration is defined in a
header outside the excerpted sources.  The spec only names the three tags
byte, word, longword; they are modelled C-style as consecutive naturals
with 0 reserved for the invalid tag. -/
def SH_SCALING_B : Nat := 1

/-- Modelled from the spec: word scaling tag (see `SH_SCALING_B`). -/
def SH_SCALING_W : Nat := 2

/-- Modelled from the spec: longword scaling tag (see `SH_SCALING_B`). -/
def SH_SCALING_L : Nat := 3

/-- Modelled from the spec: the `sh_scaling_size` table lives in a header
outside the excerpted sources; the spec gives "Scale sizes: byte=1,
word=2, longword=4".  Indices outside the three spec-defined tags are
undefined (an out-of-range read of the C array), modelled as `none`. -/
def sh_scaling_size (s : Nat) : Option Nat :=
  if s = SH_SCALING_B then some 1
  else if s = SH_SCALING_W then some 2
  else if s = SH_SCALING_L then some 4
  else none

/-- SH_U_ADDR over a possibly-undefined integer: an undefined operand
(out-of-range `sh_scaling_size` read) gives an expression with no value. -/
def SH_U_ADDR : Option Nat → Pure
  | some v => Pure.un 32 v
  | none => Pure.pnull

/-- SH_U_REG of the C source. -/
def SH_U_REG (v : Nat) : Pure := Pure.un 32 v

/-- `sh_valid_gpr` of the C source. -/
def sh_valid_gpr (reg : Nat) : Bool := reg < 16

/-- `sh_banked_reg` of the C source. -/
def sh_banked_reg (reg : Nat) : Bool := reg < 8

/-- `sh_get_banked_reg` of the C source (NULL on invalid input). -/
def sh_get_banked_reg (reg bank : Nat) : Option String :=
  if !sh_banked_reg reg || bank > 1 then none
  else sh_global_registers.get? (reg + bank * 8)

/-- VARG applied to a possibly-NULL register name. -/
def vargOf : Option String → Pure
  | some x => Pure.varg x
  | none => Pure.pnull

/-- SETG applied to a possibly-NULL register name. -/
def setgOf : Option String → Pure → Effect
  | some x, v => Effect.setg x v
  | none, _ => Effect.enull

/-- `sh_il_get_reg` of the C source: banked registers read through a
conditional on SR.MD && SR.RB. -/
def sh_il_get_reg (reg : Nat) : Pure :=
  if !sh_valid_gpr reg then Pure.pnull
  else if !sh_banked_reg reg then Pure.varg (sh_registers.getD reg "")
  else
    Pure.ite (Pure.pand (Pure.varg "sr_d") (Pure.varg "sr_r"))
      (vargOf (sh_get_banked_reg reg 1)) (vargOf (sh_get_banked_reg reg 0))

/-- `sh_il_set_reg` of the C source: banked registers write through an
effect-level branch on SR.MD && SR.RB. -/
def sh_il_set_reg (reg : Nat) (val : Pure) : Effect :=
  if !sh_valid_gpr reg then Effect.enull
  else if !sh_banked_reg reg then
    Effect.setg (sh_registers.getD reg "") val
  else
    Effect.branch (Pure.pand (Pure.varg "sr_d") (Pure.varg "sr_r"))
      (setgOf (sh_get_banked_reg reg 1) val)
      (setgOf (sh_get_banked_reg reg 0) val)

/-- `SHParamHelper` of the C source: value of a parameter together with its
pre- and post-effects. -/
structure SHParamHelper where
  pre : Effect := Effect.enull
  pure : Pure := Pure.pnull
  post : Effect := Effect.enull
deriving DecidableEq

/-- `sh_il_get_effective_addr` of the C source.  The `scaling` argument is
the possibly-undefined integer the callers pass (they pass
`sh_scaling_size[scaling]`, a byte size, where the scaling tag is
expected; the body indexes `sh_scaling_size` with it again). -/
def sh_il_get_effective_addr (param : SHParam) (scaling : Option Nat) : Pure :=
  match param.mode with
  | .SH_REG_INDIRECT | .SH_REG_INDIRECT_I | .SH_REG_INDIRECT_D =>
    sh_il_get_reg param.param0
  | .SH_REG_INDIRECT_DISP =>
    Pure.add (sh_il_get_reg param.param0)
      (Pure.mul (SH_U_ADDR (some param.param1))
        (SH_U_ADDR (scaling.bind sh_scaling_size)))
  | .SH_REG_INDIRECT_INDEXED =>
    Pure.add (sh_il_get_reg param.param0) (sh_il_get_reg param.param1)
  | .SH_GBR_INDIRECT_DISP =>
    Pure.add (Pure.varg "gbr")
      (Pure.mul (SH_U_ADDR (some param.param0))
        (SH_U_ADDR (scaling.bind sh_scaling_size)))
  | .SH_GBR_INDIRECT_INDEXED =>
    Pure.add (Pure.varg "gbr") (sh_il_get_reg param.param0)
  | .SH_PC_RELATIVE_DISP =>
    let pc := Pure.varg "pc"
    let pc :=
      Pure.ite
        (Pure.eq (SH_U_ADDR (scaling.bind sh_scaling_size)) (SH_U_ADDR (some 4)))
        (Pure.logand pc (Pure.un 32 0xfffffffc)) pc
    let pc := Pure.add pc (Pure.un 32 4)
    Pure.add pc
      (Pure.mul (SH_U_ADDR (some param.param0))
        (SH_U_ADDR (scaling.bind sh_scaling_size)))
  | .SH_PC_RELATIVE =>
    Pure.add (Pure.add (Pure.varg "pc") (Pure.un 32 4))
      (Pure.mul (Pure.sn 32 (param.param0 : Int)) (Pure.sn 32 2))
  | .SH_PC_RELATIVE_REG =>
    Pure.add (Pure.add (Pure.varg "pc") (Pure.un 32 4))
      (sh_il_get_reg param.param0)
  | _ => Pure.pnull

/-- `sh_il_get_param` of the C source.  As in `sh_il_get_effective_addr`,
`scaling` is the possibly-undefined integer the caller passes (instruction
functions pass the scaling tag, `sh_il_set_param` passes
`sh_scaling_size[scaling]`); the body indexes `sh_scaling_size` with it. -/
def sh_il_get_param (param : SHParam) (scaling : Option Nat) : SHParamHelper :=
  match param.mode with
  | .SH_REG_DIRECT => { pure := sh_il_get_reg param.param0 }
  | .SH_REG_INDIRECT =>
    { pure := sh_il_get_effective_addr param (scaling.bind sh_scaling_size) }
  | .SH_REG_INDIRECT_I =>
    { pure := sh_il_get_effective_addr param (scaling.bind sh_scaling_size),
      post := sh_il_set_reg param.param0
        (Pure.add (sh_il_get_reg param.param0)
          (SH_U_ADDR (scaling.bind sh_scaling_size))) }
  | .SH_REG_INDIRECT_D =>
    { pre := sh_il_set_reg param.param0
        (Pure.sub (sh_il_get_reg param.param0)
          (SH_U_ADDR (scaling.bind sh_scaling_size))),
      pure := sh_il_get_effective_addr param (scaling.bind sh_scaling_size) }
  | .SH_REG_INDIRECT_DISP =>
    { pure := Pure.loadw ((scaling.bind sh_scaling_size).map (8 * ·))
        (sh_il_get_effective_addr param (scaling.bind sh_scaling_size)) }
  | .SH_REG_INDIRECT_INDEXED =>
    { pure := Pure.loadw ((scaling.bind sh_scaling_size).map (8 * ·))
        (sh_il_get_effective_addr param (scaling.bind sh_scaling_size)) }
  | .SH_GBR_INDIRECT_DISP =>
    { pure := Pure.loadw ((scaling.bind sh_scaling_size).map (8 * ·))
        (sh_il_get_effective_addr param (scaling.bind sh_scaling_size)) }
  | .SH_GBR_INDIRECT_INDEXED =>
    { pure := Pure.loadw ((scaling.bind sh_scaling_size).map (8 * ·))
        (sh_il_get_effective_addr param (scaling.bind sh_scaling_size)) }
  | .SH_PC_RELATIVE_DISP =>
    { pure := sh_il_get_effective_addr param (scaling.bind sh_scaling_size) }
  | .SH_PC_RELATIVE =>
    { pure := sh_il_get_effective_addr param (scaling.bind sh_scaling_size) }
  | .SH_PC_RELATIVE_REG =>
    { pure := sh_il_get_effective_addr param (scaling.bind sh_scaling_size) }
  | .SH_IMM_U => { pure := SH_U_REG param.param0 }
  | .SH_IMM_S => { pure := Pure.sn 32 (param.param0 : Int) }
  | _ => {}

/-- `sh_apply_effects` of the C source (including the goto that skips the
pre-effect when the target started out NULL). -/
def sh_apply_effects (target pre post : Effect) : Effect :=
  match target with
  | .enull =>
    match pre with
    | .enull =>
      match post with
      | .enull => Effect.enull
      | p => p
    | pr =>
      match post with
      | .enull => pr
      | po => SEQ2 pr po
  | t =>
    let t1 :=
      match pre with
      | .enull => t
      | pr => SEQ2 pr t
    match post with
    | .enull => t1
    | po => SEQ2 t1 po

/-- `sh_il_set_param` of the C source.  For the immediate modes (and the
default case) the C function logs an error but does not return, so `ret`
stays NULL and control falls into the store path, which builds a STOREW
whose address comes from `sh_il_get_effective_addr` (NULL for immediates). -/
def sh_il_set_param (param : SHParam) (val : Pure) (scaling : Option Nat) :
    Effect :=
  let ret : Effect :=
    match param.mode with
    | .SH_REG_DIRECT => sh_il_set_reg param.param0 val
    | _ => Effect.enull
  match ret with
  | .enull =>
    let ret_h := sh_il_get_param param (scaling.bind sh_scaling_size)
    sh_apply_effects
      (Effect.storew
        (sh_il_get_effective_addr param (scaling.bind sh_scaling_size)) val)
      ret_h.pre ret_h.post
  | r => sh_apply_effects r Effect.enull Effect.enull

/-- The `sh_il_get_pure_param` macro of the C source. -/
def sh_il_get_pure_param (op : SHOp) (x : Nat) : Pure :=
  (sh_il_get_param (op.paramAt x) (some op.scaling)).pure

/-- The `sh_il_set_pure_param` macro of the C source. -/
def sh_il_set_pure_param (op : SHOp) (x : Nat) (val : Pure) : Effect :=
  sh_il_set_param (op.paramAt x) val (some op.scaling)

/-- `sh_il_is_sub_borrow` of the C source:
bit 31 of `(~x & y) | (y & res) | (res & ~x)`. -/
def sh_il_is_sub_borrow (res x y : Pure) : Pure :=
  let nx := Pure.lognot x
  let nxy := Pure.logand nx y
  let rny := Pure.logand y res
  let rnx := Pure.logand res nx
  let or1 := Pure.logor nxy rny
  let or2 := Pure.logor or1 rnx
  Pure.nonZero (Pure.logand (SH_U_REG 0x80000000) or2)

/-- `sh_il_mov` of the C source.  Note that the source calls
`sh_apply_effects(ret, shp.pre, shp.post)` but discards its result, so
`ret` is still NULL in the returned `SEQ2`. -/
def sh_il_mov (op : SHOp) : Effect :=
  let ret := Effect.enull
  let shp := sh_il_get_param (op.paramAt 0) (some op.scaling)
  SEQ2 ret (sh_il_set_param (op.paramAt 1) shp.pure (some op.scaling))

/-- `sh_il_div1` of the C source: the single-step non-restoring division. -/
def sh_il_div1 (op : SHOp) : Effect :=
  let old_q := Effect.setl "old_q" (Pure.varg "sr_q")
  let q := Effect.setg "sr_q" (Pure.msb (sh_il_get_pure_param op 1))
  let shl := sh_il_set_pure_param op 1
    (Pure.shiftl0 (sh_il_get_pure_param op 1) (SH_U_REG 1))
  let ort := sh_il_set_pure_param op 1
    (Pure.por (sh_il_get_pure_param op 1) (Pure.cast 32 false (Pure.varg "sr_t")))
  let init := SEQ4 old_q q shl ort
  let q0m0 := SEQ4
    (Effect.setl "tmp0" (sh_il_get_pure_param op 1))
    (sh_il_set_pure_param op 1
      (Pure.sub (sh_il_get_pure_param op 1) (sh_il_get_pure_param op 0)))
    (Effect.setl "tmp1" (Pure.ugt (sh_il_get_pure_param op 1) (Pure.varl "tmp0")))
    (Effect.branch (Pure.varg "sr_q")
      (Effect.setg "sr_q" (Pure.isZero (Pure.varl "tmp1")))
      (Effect.setg "sr_q" (Pure.varl "tmp1")))
  let q0m1 := SEQ4
    (Effect.setl "tmp0" (sh_il_get_pure_param op 1))
    (sh_il_set_pure_param op 1
      (Pure.add (sh_il_get_pure_param op 1) (sh_il_get_pure_param op 0)))
    (Effect.setl "tmp1" (Pure.ult (sh_il_get_pure_param op 1) (Pure.varl "tmp0")))
    (Effect.branch (Pure.varg "sr_q")
      (Effect.setg "sr_q" (Pure.varl "tmp1"))
      (Effect.setg "sr_q" (Pure.isZero (Pure.varl "tmp1"))))
  let q1m0 := SEQ4
    (Effect.setl "tmp0" (sh_il_get_pure_param op 1))
    (sh_il_set_pure_param op 1
      (Pure.add (sh_il_get_pure_param op 1) (sh_il_get_pure_param op 0)))
    (Effect.setl "tmp1" (Pure.ult (sh_il_get_pure_param op 1) (Pure.varl "tmp0")))
    (Effect.branch (Pure.varg "sr_q")
      (Effect.setg "sr_q" (Pure.isZero (Pure.varl "tmp1")))
      (Effect.setg "sr_q" (Pure.varl "tmp1")))
  let q1m1 := SEQ4
    (Effect.setl "tmp0" (sh_il_get_pure_param op 1))
    (sh_il_set_pure_param op 1
      (Pure.sub (sh_il_get_pure_param op 1) (sh_il_get_pure_param op 0)))
    (Effect.setl "tmp1" (Pure.ugt (sh_il_get_pure_param op 1) (Pure.varl "tmp0")))
    (Effect.branch (Pure.varg "sr_q")
      (Effect.setg "sr_q" (Pure.varl "tmp1"))
      (Effect.setg "sr_q" (Pure.isZero (Pure.varl "tmp1"))))
  let q0 := Effect.branch (Pure.varg "sr_m") q0m1 q0m0
  let q1 := Effect.branch (Pure.varg "sr_m") q1m1 q1m0
  let q_switch := Effect.branch (Pure.varl "old_q") q1 q0
  SEQ3 init q_switch
    (Effect.setg "sr_t" (Pure.eq (Pure.varg "sr_q") (Pure.varg "sr_m")))

/-- `sh_il_dt` of the C source: decrement, then set T from the operand. -/
def sh_il_dt (op : SHOp) : Effect :=
  SEQ2
    (sh_il_set_pure_param op 0
      (Pure.sub (sh_il_get_pure_param op 0) (SH_U_REG 1)))
    (Effect.setg "sr_t" (Pure.nonZero (sh_il_get_pure_param op 0)))

/-- `sh_il_exts` of the C source: mask to a byte/word inside the 32-bit
value, then branch on the MSB of that (32-bit) masked expression. -/
def sh_il_exts (op : SHOp) : Effect :=
  if op.scaling = SH_SCALING_B then
    let byte := Pure.logand (sh_il_get_pure_param op 0) (SH_U_REG 0xff)
    let msbBit := Pure.msb byte
    Effect.branch msbBit
      (sh_il_set_pure_param op 1 (Pure.logor byte (SH_U_REG 0xffffff00)))
      (sh_il_set_pure_param op 1 byte)
  else if op.scaling = SH_SCALING_W then
    let word := Pure.logand (sh_il_get_pure_param op 0) (SH_U_REG 0xffff)
    let msbBit := Pure.msb word
    Effect.branch msbBit
      (sh_il_set_pure_param op 1 (Pure.logor word (SH_U_REG 0xffff0000)))
      (sh_il_set_pure_param op 1 word)
  else Effect.enull

/-- `sh_il_mac` of the C source.  In the long form, the true (S = 1) arm of
the BRANCH is a SETL of the local "mac" while the false (S = 0) arm is a
SETG of a global named "mac", exactly as in the source. -/
def sh_il_mac (op : SHOp) : Effect :=
  let shp_rm := sh_il_get_param (op.paramAt 0) (some op.scaling)
  let shp_rn := sh_il_get_param (op.paramAt 1) (some op.scaling)
  let eff :=
    if op.scaling = SH_SCALING_L then
      let mac := Effect.setl "mac"
        (Pure.logor
          (Pure.shiftl0 (Pure.cast 64 false (Pure.varg "mach")) (SH_U_REG 32))
          (Pure.cast 64 false (Pure.varg "macl")))
      let mul := Pure.mul (Pure.cast 64 true shp_rm.pure)
        (Pure.cast 64 true shp_rn.pure)
      let add := Pure.add mul (Pure.varl "mac")
      let low := Pure.cast 48 false (Pure.logand add (Pure.un 64 0xffffffffffff))
      let sat := Pure.cast 64 true low
      let eff := SEQ2 mac
        (Effect.branch (Pure.varg "sr_s")
          (Effect.setl "mac" sat) (Effect.setg "mac" add))
      let lower_bits := Pure.cast 32 false
        (Pure.logand (Pure.varl "mac") (Pure.un 64 0xffffffff))
      let higher_bits := Pure.cast 32 false
        (Pure.shiftr0 (Pure.varl "mac") (SH_U_REG 32))
      SEQ3 eff (Effect.setg "macl" lower_bits) (Effect.setg "mach" higher_bits)
    else if op.scaling = SH_SCALING_W then
      let mac := Effect.setl "mac"
        (Pure.logor
          (Pure.shiftl0 (Pure.cast 64 false (Pure.varg "mach")) (SH_U_REG 32))
          (Pure.cast 64 false (Pure.varg "macl")))
      let mul := Pure.cast 64 false
        (Pure.mul (Pure.cast 32 true shp_rm.pure) (Pure.cast 32 true shp_rn.pure))
      let add := Pure.add mul (Pure.varg "mac")
      let sat_add := Pure.add (Pure.cast 32 false mul) (Pure.varg "macl")
      let lower_bits := Pure.cast 32 false
        (Pure.logand add (Pure.un 64 0xffffffff))
      let higher_bits := Pure.cast 32 false (Pure.shiftr0 add (SH_U_REG 32))
      SEQ2 mac
        (Effect.branch (Pure.varg "sr_s")
          (Effect.setg "macl" sat_add)
          (SEQ2 (Effect.setg "macl" lower_bits) (Effect.setg "mach" higher_bits)))
    else Effect.enull
  SEQ3 eff shp_rn.post shp_rm.post

/-- `sh_il_subc` of the C source: the first combination of the operands is
an ADD, and the borrow predicate is re-evaluated after the write (DUP has
value semantics over the same expression). -/
def sh_il_subc (op : SHOp) : Effect :=
  let dif := Pure.add (sh_il_get_pure_param op 0) (sh_il_get_pure_param op 1)
  let dif := Pure.sub dif (Pure.cast 32 false (Pure.varg "sr_t"))
  let ret := sh_il_set_pure_param op 1 dif
  let tbit := Effect.setg "sr_t"
    (sh_il_is_sub_borrow dif (sh_il_get_pure_param op 0)
      (sh_il_get_pure_param op 1))
  SEQ2 ret tbit

/-- Name of the physical storage of banked register `i` in bank 1
(`b = true`) or bank 0 (`b = false`). -/
def sh_banked_name (i : Nat) (b : Bool) : String :=
  sh_global_registers.getD (i + if b then 8 else 0) ""

/-- Name of the physical storage a GPR access resolves to when
SR.MD && SR.RB evaluates to `c`. -/
def sh_reg_var (i : Nat) (c : Bool) : String :=
  if i < 8 then sh_banked_name i c else sh_registers.getD i ""

/-- A concrete state from an association list of globals, empty locals,
zeroed memory (used for concrete evaluations). -/
def stdState (assoc : List (String × Val)) : State :=
  { globals := fun k => (assoc.find? (fun p => p.1 = k)).map Prod.snd,
    locals := fun _ => none,
    mem := fun _ => 0 }

/-- Reference single-step non-restoring division, written from the claim
(the SH reference manual's DIV1 algorithm): save old Q; Q := MSB of the
destination; shift the destination left by 1 inserting T in bit 0; per
(old Q, M) do Q0/M0 subtract, Q0/M1 add, Q1/M0 add, Q1/M1 subtract the
divisor (arithmetic is two's complement modulo `2 ^ 32`); update Q from
the carry/borrow direction of that step; finally T := (Q == M).
Returns (new destination, new Q, new T). -/
def div1_reference (vn vm : Nat) (oldq mf t : Bool) : Nat × Bool × Bool :=
  let qmid := Nat.testBit vn 31
  let rn1 := ((vn <<< 1) % 2 ^ 32) ||| (if t then 1 else 0)
  let subRes := (rn1 + (2 ^ 32 - vm)) % 2 ^ 32
  let addRes := (rn1 + vm) % 2 ^ 32
  let res := match oldq, mf with
    | false, false => subRes
    | false, true => addRes
    | true, false => addRes
    | true, true => subRes
  let tmp1 := match oldq, mf with
    | false, false => decide (rn1 < subRes)
    | false, true => decide (addRes < rn1)
    | true, false => decide (addRes < rn1)
    | true, true => decide (rn1 < subRes)
  let newq := match oldq, mf with
    | false, false => if qmid then !tmp1 else tmp1
    | false, true => if qmid then tmp1 else !tmp1
    | true, false => if qmid then !tmp1 else tmp1
    | true, true => if qmid then tmp1 else !tmp1
  (res, newq, newq == mf)

/-- SUBC Rm, Rn with Rm = r9, Rn = r10 (both unbanked). -/
def subcOp : SHOp :=
  { param0 := ⟨.SH_REG_DIRECT, 9, 0⟩, param1 := ⟨.SH_REG_DIRECT, 10, 0⟩,
    scaling := SH_SCALING_L }

/-- State for the SUBC failing input: Rm = 1, Rn = 0, T = 0. -/
def subcState : State :=
  stdState [("r9", .bv 32 1), ("r10", .bv 32 0),
    ("sr_t", .b false), ("sr_d", .b false), ("sr_r", .b false)]

/-- MOV with a post-increment source @r9+ and destination r10 (byte). -/
def movOpPostInc : SHOp :=
  { param0 := ⟨.SH_REG_INDIRECT_I, 9, 0⟩, param1 := ⟨.SH_REG_DIRECT, 10, 0⟩,
    scaling := SH_SCALING_B }

/-- MOV with a pre-decrement source @-r9 and destination r10 (byte). -/
def movOpPreDec : SHOp :=
  { param0 := ⟨.SH_REG_INDIRECT_D, 9, 0⟩, param1 := ⟨.SH_REG_DIRECT, 10, 0⟩,
    scaling := SH_SCALING_B }

/-- EXTS Rm, Rn with Rm = r9, Rn = r10, byte scaling. -/
def extsOpB : SHOp :=
  { param0 := ⟨.SH_REG_DIRECT, 9, 0⟩, param1 := ⟨.SH_REG_DIRECT, 10, 0⟩,
    scaling := SH_SCALING_B }

/-- EXTS Rm, Rn with Rm = r9, Rn = r10, word scaling. -/
def extsOpW : SHOp :=
  { param0 := ⟨.SH_REG_DIRECT, 9, 0⟩, param1 := ⟨.SH_REG_DIRECT, 10, 0⟩,
    scaling := SH_SCALING_W }

/-- State for EXTS.B: source low byte 0xFF. -/
def extsStateB : State :=
  stdState [("r9", .bv 32 0xff), ("r10", .bv 32 0),
    ("sr_d", .b false), ("sr_r", .b false)]

/-- State for EXTS.W: source low word 0xFFFF. -/
def extsStateW : State :=
  stdState [("r9", .bv 32 0xffff), ("r10", .bv 32 0),
    ("sr_d", .b false), ("sr_r", .b false)]

/-- DT Rn with Rn = r9. -/
def dtOp : SHOp :=
  { param0 := ⟨.SH_REG_DIRECT, 9, 0⟩, param1 := ⟨.SH_REG_DIRECT, 9, 0⟩,
    scaling := SH_SCALING_L }

/-- State for the DT failing input: Rn = 1, so the decrement reaches 0. -/
def dtState : State :=
  stdState [("r9", .bv 32 1), ("sr_t", .b false),
    ("sr_d", .b false), ("sr_r", .b false)]

/-- MAC.L with direct-register params r9, r10, isolating the accumulation
logic (the post-increments of the architectural @Rm+/@Rn+ forms are
orthogonal to the accumulation). -/
def macOp : SHOp :=
  { param0 := ⟨.SH_REG_DIRECT, 9, 0⟩, param1 := ⟨.SH_REG_DIRECT, 10, 0⟩,
    scaling := SH_SCALING_L }

/-- MAC.L input with S = 0: MACH:MACL = 5, product 2 × 3 = 6. -/
def macStateS0 : State :=
  stdState [("r9", .bv 32 2), ("r10", .bv 32 3),
    ("mach", .bv 32 0), ("macl", .bv 32 5),
    ("sr_s", .b false), ("sr_d", .b false), ("sr_r", .b false)]

/-- MAC.L input with S = 1: MACH:MACL = 0xFFFFFFFFFFFF (2^48 − 1, above
the 48-bit signed maximum 2^47 − 1), product 0. -/
def macStateS1 : State :=
  stdState [("r9", .bv 32 0), ("r10", .bv 32 7),
    ("mach", .bv 32 0xffff), ("macl", .bv 32 0xffffffff),
    ("sr_s", .b true), ("sr_d", .b false), ("sr_r", .b false)]

/-- State for the C9 witness: bank-0 r3 is 17, bank-1 r3 is 99,
SR.MD = SR.RB = 1. -/
def bankState : State :=
  stdState [("r3b0", .bv 32 17), ("r3b1", .bv 32 99),
    ("sr_d", .b true), ("sr_r", .b true)]

/-- State for the C8 witness: base register r9 = 100. -/
def dispState : State :=
  stdState [("r9", .bv 32 100), ("sr_d", .b false), ("sr_r", .b false)]

/-- State for the C2 witness: banked Rm = r1 (bank 1) = 3,
Rn = r2 (bank 1) = 16, Q = M = T = 0, SR.MD = SR.RB = 1. -/
def div1State : State :=
  stdState [("r1b1", .bv 32 3), ("r2b1", .bv 32 16),
    ("sr_q", .b false), ("sr_m", .b false), ("sr_t", .b false),
    ("sr_d", .b true), ("sr_r", .b true)]

theorem updateG_globals (s : State) (k : String) (v : Val) (k2 : String) :
    (updateG s k v).globals k2 = if k2 = k then some v else s.globals k2 := rfl

theorem updateG_locals (s : State) (k : String) (v : Val) :
    (updateG s k v).locals = s.locals := rfl

theorem updateL_globals (s : State) (k : String) (v : Val) :
    (updateL s k v).globals = s.globals := rfl

theorem updateL_locals (s : State) (k : String) (v : Val) (k2 : String) :
    (updateL s k v).locals k2 = if k2 = k then some v else s.locals k2 := rfl

theorem sh_banked_lookup : ∀ i, i < 8 →
    sh_get_banked_reg i 1 = some (sh_banked_name i true) ∧
    sh_get_banked_reg i 0 = some (sh_banked_name i false) := by decide

theorem sh_reg_var_ne_special : ∀ i, i < 16 → ∀ c : Bool,
    sh_reg_var i c ≠ "sr_d" ∧ sh_reg_var i c ≠ "sr_r" ∧
    sh_reg_var i c ≠ "sr_q" ∧ sh_reg_var i c ≠ "sr_m" ∧
    sh_reg_var i c ≠ "sr_t" ∧ sh_reg_var i c ≠ "sr_s" ∧
    sh_reg_var i c ≠ "mach" ∧ sh_reg_var i c ≠ "macl" ∧
    sh_reg_var i c ≠ "mac" ∧ sh_reg_var i c ≠ "gbr" := by decide

theorem sh_reg_var_inj : ∀ m, m < 16 → ∀ n, n < 16 → ∀ c : Bool,
    m ≠ n → sh_reg_var m c ≠ sh_reg_var n c := by decide

/-- Reading a GPR resolves to the bank selected by SR.MD && SR.RB. -/
theorem evalPure_get_reg (s : State) (md rb : Bool) (i : Nat) (h : i < 16)
    (hd : s.globals "sr_d" = some (Val.b md))
    (hr : s.globals "sr_r" = some (Val.b rb)) :
    evalPure s (sh_il_get_reg i) = s.globals (sh_reg_var i (md && rb)) := by
  by_cases h8 : i < 8
  · have hb := sh_banked_lookup i h8
    cases md <;> cases rb <;>
      simp [sh_il_get_reg, sh_valid_gpr, sh_banked_reg, h, h8, hb.1, hb.2,
        vargOf, evalPure, vIte, vAnd, hd, hr, sh_reg_var]
  · simp [sh_il_get_reg, sh_valid_gpr, sh_banked_reg, h, h8, evalPure,
      sh_reg_var]

/-- Writing a GPR stores to the bank selected by SR.MD && SR.RB. -/
theorem exec_set_reg (s : State) (md rb : Bool) (i : Nat) (p : Pure)
    (h : i < 16)
    (hd : s.globals "sr_d" = some (Val.b md))
    (hr : s.globals "sr_r" = some (Val.b rb)) :
    exec s (sh_il_set_reg i p) =
      (evalPure s p).map fun v => updateG s (sh_reg_var i (md && rb)) v := by
  by_cases h8 : i < 8
  · have hb := sh_banked_lookup i h8
    cases md <;> cases rb <;>
      simp [sh_il_set_reg, sh_valid_gpr, sh_banked_reg, h, h8, hb.1, hb.2,
        setgOf, exec, evalPure, eIte, vAnd, hd, hr, sh_reg_var]
  · simp [sh_il_set_reg, sh_valid_gpr, sh_banked_reg, h, h8, exec,
      sh_reg_var]

/-- For a direct-register parameter, `sh_il_set_param` is exactly
`sh_il_set_reg` (for a valid register the store path is not taken). -/
theorem set_param_direct_eq (i j : Nat) (p : Pure) (scal : Option Nat)
    (h : i < 16) :
    sh_il_set_param ⟨SHAddrMode.SH_REG_DIRECT, i, j⟩ p scal =
      sh_il_set_reg i p := by
  by_cases h8 : i < 8
  · have hb := sh_banked_lookup i h8
    simp [sh_il_set_param, sh_il_set_reg, sh_valid_gpr, sh_banked_reg,
      h, h8, hb.1, hb.2, setgOf, sh_apply_effects]
  · simp [sh_il_set_param, sh_il_set_reg, sh_valid_gpr, sh_banked_reg,
      h, h8, sh_apply_effects]

/-- For a direct-register parameter, the pure of `sh_il_get_param` is
exactly `sh_il_get_reg`. -/
theorem get_param_direct_eq (i j : Nat) (scal : Option Nat) :
    (sh_il_get_param ⟨SHAddrMode.SH_REG_DIRECT, i, j⟩ scal).pure =
      sh_il_get_reg i := rfl

/-- Claim C1: the claim states that SUBC assigns Rn := (Rn − Rm − T) mod
2^32 and sets T to the sub-borrow predicate; at the spec's own test vector
Rm = 1, Rn = 0, T = 0 that demands Rn' = 0xFFFFFFFF and T' = 1.  The code
combines the operands with ADD (contradicting its own doc comment
"Rn - Rm - T -> Rn"), so the lifted effect actually yields Rn' = 1 and
T' = 0. -/
theorem subc_lifts_to_add :
    (exec subcState (sh_il_subc subcOp)).map
      (fun s1 => (s1.globals "r10", s1.globals "sr_t")) =
    some (some (Val.bv 32 1), some (Val.b false)) := by decide

/-- Claim C3: the claim states that for a pre-decrement or post-increment
MOV source the returned tree contains the source's pre/post effects before
the write.  The code calls `sh_apply_effects(ret, shp.pre, shp.post)` but
discards the result, so the returned tree is `SEQ2(NULL, write)`, which
contains neither — even though `sh_il_get_param` did build the non-null
increment/decrement effects (last two conjuncts). -/
theorem mov_discards_source_effects :
    sh_il_mov movOpPostInc =
      SEQ2 Effect.enull (Effect.setg "r10" (Pure.varg "r9")) ∧
    sh_il_mov movOpPreDec =
      SEQ2 Effect.enull (Effect.setg "r10" (Pure.varg "r9")) ∧
    (sh_il_get_param ⟨.SH_REG_INDIRECT_I, 9, 0⟩ (some SH_SCALING_B)).post =
      Effect.setg "r9" (Pure.add (Pure.varg "r9") (Pure.un 32 1)) ∧
    (sh_il_get_param ⟨.SH_REG_INDIRECT_D, 9, 0⟩ (some SH_SCALING_B)).pre =
      Effect.setg "r9" (Pure.sub (Pure.varg "r9") (Pure.un 32 1)) := by
  decide

/-- Claim C4: the claim states that a plain register-indirect parameter
reads as a memory load of scaling×8 bits at the effective address.  The
code returns the effective address itself (the register value) as the
parameter's value — no load node at all — with empty pre/post effects. -/
theorem get_param_plain_indirect_is_address (i j : Nat) (scal : Option Nat) :
    sh_il_get_param ⟨.SH_REG_INDIRECT, i, j⟩ scal =
      { pre := Effect.enull, pure := sh_il_get_reg i, post := Effect.enull } ∧
    ∀ w a, sh_il_get_reg i ≠ Pure.loadw w a := by
  refine ⟨rfl, ?_⟩
  intro w a
  by_cases h16 : sh_valid_gpr i
  · by_cases h8 : sh_banked_reg i
    · simp [sh_il_get_reg, h16, h8]
    · simp [sh_il_get_reg, h16, h8]
  · simp [sh_il_get_reg, h16]

/-- Claim C5: the claim states that EXTS.B sign-extends the low byte
(0xFF ↦ 0xFFFFFFFF) and EXTS.W the low word.  The code masks inside the
32-bit value and branches on the MSB (bit 31) of the masked 32-bit
expression, which is always 0, so the sign-extension arm is never taken:
EXTS.B of 0xFF yields 0x000000FF and EXTS.W of 0xFFFF yields 0x0000FFFF. -/
theorem exts_zero_extends :
    (exec extsStateB (sh_il_exts extsOpB)).map (fun s1 => s1.globals "r10") =
      some (some (Val.bv 32 0xff)) ∧
    (exec extsStateW (sh_il_exts extsOpW)).map (fun s1 => s1.globals "r10") =
      some (some (Val.bv 32 0xffff)) := by decide

/-- Claim C6: the claim (and the code's own doc comment "When Rn = 0,
1 -> T") states that DT sets T = 1 exactly when the decremented result is
zero.  The code uses NON_ZERO, so at Rn = 1 the decrement reaches 0 but T
is set to 0. -/
theorem dt_sets_t_nonzero :
    (exec dtState (sh_il_dt dtOp)).map
      (fun s1 => (s1.globals "r9", s1.globals "sr_t")) =
    some (some (Val.bv 32 0), some (Val.b false)) := by decide

/-- Claim C7: the claim states that MAC.L saturates the accumulation to
the 48-bit signed range when S = 1, and wraps modulo 2^64 into MACH:MACL
when S = 0.  In the code the S = 0 arm is `SETG("mac", ...)` — a write to
a stray global — while MACH:MACL are rebuilt from the stale local "mac",
so the accumulation 2 × 3 + 5 = 11 is lost (MACL stays 5, the 11 lands in
the global "mac"); and the S = 1 path sign-extends the low 48 bits
(truncation) instead of clamping: accumulator 2^48 − 1 becomes
0xFFFFFFFF:0xFFFFFFFF instead of the clamped 0x00007FFF:0xFFFFFFFF. -/
theorem mac_long_loses_accumulation :
    (exec macStateS0 (sh_il_mac macOp)).map
      (fun s1 => (s1.globals "macl", s1.globals "mach", s1.globals "mac")) =
      some (some (Val.bv 32 5), some (Val.bv 32 0), some (Val.bv 64 11)) ∧
    (exec macStateS1 (sh_il_mac macOp)).map
      (fun s1 => (s1.globals "macl", s1.globals "mach")) =
      some (some (Val.bv 32 0xffffffff), some (Val.bv 32 0xffffffff)) := by
  decide

/-- Claim C9: for a banked GPR (index < 8), a read resolves to the bank-1
storage exactly when SR.MD and SR.RB are both 1 and to bank-0 otherwise;
a write is an effect-level branch on SR.MD && SR.RB with two mutually
exclusive stores, and executing it updates exactly the selected bank. -/
theorem banked_reg_access (s : State) (md rb : Bool) (i : Nat) (p : Pure)
    (h : i < 8)
    (hd : s.globals "sr_d" = some (Val.b md))
    (hr : s.globals "sr_r" = some (Val.b rb)) :
    evalPure s (sh_il_get_reg i) =
      (if md && rb then s.globals (sh_banked_name i true)
       else s.globals (sh_banked_name i false)) ∧
    sh_il_set_reg i p =
      Effect.branch (Pure.pand (Pure.varg "sr_d") (Pure.varg "sr_r"))
        (Effect.setg (sh_banked_name i true) p)
        (Effect.setg (sh_banked_name i false) p) ∧
    exec s (sh_il_set_reg i p) = (evalPure s p).map fun v =>
      updateG s
        (if md && rb then sh_banked_name i true else sh_banked_name i false)
        v := by
  have h16 : i < 16 := by omega
  refine ⟨?_, ?_, ?_⟩
  · rw [evalPure_get_reg s md rb i h16 hd hr]
    cases md <;> cases rb <;> simp [sh_reg_var, h]
  · have hb := sh_banked_lookup i h
    simp [sh_il_set_reg, sh_valid_gpr, sh_banked_reg, h16, h, hb.1, hb.2,
      setgOf]
  · rw [exec_set_reg s md rb i p h16 hd hr]
    cases md <;> cases rb <;> simp [sh_reg_var, h]

/-- Witness for C9 at index 3 with SR.MD = SR.RB = 1: the read yields the
bank-1 value and the write is the branch storing to r3b1/r3b0. -/
theorem banked_reg_access_witness :
    evalPure bankState (sh_il_get_reg 3) =
      (if true && true then bankState.globals (sh_banked_name 3 true)
       else bankState.globals (sh_banked_name 3 false)) ∧
    sh_il_set_reg 3 (Pure.un 32 7) =
      Effect.branch (Pure.pand (Pure.varg "sr_d") (Pure.varg "sr_r"))
        (Effect.setg (sh_banked_name 3 true) (Pure.un 32 7))
        (Effect.setg (sh_banked_name 3 false) (Pure.un 32 7)) ∧
    exec bankState (sh_il_set_reg 3 (Pure.un 32 7)) =
      (evalPure bankState (Pure.un 32 7)).map fun v =>
        updateG bankState
          (if true && true then sh_banked_name 3 true
           else sh_banked_name 3 false) v :=
  banked_reg_access bankState true true 3 (Pure.un 32 7) (by decide) rfl rfl

/-- Claim C8: for register-indirect-with-displacement, the read path loads
at and the write path stores at the same effective-address expression; for
byte and word scaling that address evaluates to base + disp × 1 and
base + disp × 2 as the claim states, but for longword the code's double
application of the size table (it passes `sh_scaling_size[scaling]` where
a scaling tag is expected) indexes the table outside the spec-defined
sizes, so the longword address has no value instead of base + disp × 4. -/
theorem disp_effective_addr (s : State) (md rb : Bool) (i j b : Nat)
    (v : Pure) (h : i < 16)
    (hd : s.globals "sr_d" = some (Val.b md))
    (hr : s.globals "sr_r" = some (Val.b rb))
    (hb : s.globals (sh_reg_var i (md && rb)) = some (Val.bv 32 b))
    (hj : j < 2 ^ 16) :
    (sh_il_get_param ⟨.SH_REG_INDIRECT_DISP, i, j⟩ (some SH_SCALING_B)).pure =
      Pure.loadw (some 8)
        (sh_il_get_effective_addr ⟨.SH_REG_INDIRECT_DISP, i, j⟩ (some 1)) ∧
    sh_il_set_param ⟨.SH_REG_INDIRECT_DISP, i, j⟩ v (some SH_SCALING_B) =
      Effect.storew
        (sh_il_get_effective_addr ⟨.SH_REG_INDIRECT_DISP, i, j⟩ (some 1)) v ∧
    evalPure s (sh_il_get_effective_addr ⟨.SH_REG_INDIRECT_DISP, i, j⟩ (some 1)) =
      some (Val.bv 32 ((b + j * 1) % 2 ^ 32)) ∧
    (sh_il_get_param ⟨.SH_REG_INDIRECT_DISP, i, j⟩ (some SH_SCALING_W)).pure =
      Pure.loadw (some 16)
        (sh_il_get_effective_addr ⟨.SH_REG_INDIRECT_DISP, i, j⟩ (some 2)) ∧
    sh_il_set_param ⟨.SH_REG_INDIRECT_DISP, i, j⟩ v (some SH_SCALING_W) =
      Effect.storew
        (sh_il_get_effective_addr ⟨.SH_REG_INDIRECT_DISP, i, j⟩ (some 2)) v ∧
    evalPure s (sh_il_get_effective_addr ⟨.SH_REG_INDIRECT_DISP, i, j⟩ (some 2)) =
      some (Val.bv 32 ((b + j * 2) % 2 ^ 32)) ∧
    (sh_il_get_param ⟨.SH_REG_INDIRECT_DISP, i, j⟩ (some SH_SCALING_L)).pure =
      Pure.loadw (some 32)
        (sh_il_get_effective_addr ⟨.SH_REG_INDIRECT_DISP, i, j⟩ (some 4)) ∧
    sh_il_set_param ⟨.SH_REG_INDIRECT_DISP, i, j⟩ v (some SH_SCALING_L) =
      Effect.storew
        (sh_il_get_effective_addr ⟨.SH_REG_INDIRECT_DISP, i, j⟩ (some 4)) v ∧
    evalPure s (sh_il_get_effective_addr ⟨.SH_REG_INDIRECT_DISP, i, j⟩ (some 4)) =
      none := by
  have hreg : evalPure s (sh_il_get_reg i) = some (Val.bv 32 b) := by
    rw [evalPure_get_reg s md rb i h hd hr]; exact hb
  have hj1 : j * 1 % 2 ^ 32 = j * 1 := Nat.mod_eq_of_lt (by omega)
  have hj2 : j * 2 % 2 ^ 32 = j * 2 := Nat.mod_eq_of_lt (by omega)
  refine ⟨rfl, rfl, ?_, rfl, rfl, ?_, rfl, rfl, ?_⟩
  · simp [sh_il_get_effective_addr, SH_U_ADDR, sh_scaling_size,
      SH_SCALING_B, SH_SCALING_W, SH_SCALING_L, evalPure, hreg, vAdd, vMul,
      hj1]
  · simp [sh_il_get_effective_addr, SH_U_ADDR, sh_scaling_size,
      SH_SCALING_B, SH_SCALING_W, SH_SCALING_L, evalPure, hreg, vAdd, vMul,
      hj2]
  · simp [sh_il_get_effective_addr, SH_U_ADDR, sh_scaling_size,
      SH_SCALING_B, SH_SCALING_W, SH_SCALING_L, evalPure, hreg, vAdd, vMul]

/-- Witness for C8 at base r9 = 100, displacement 3: the byte address is
103, the longword address has no value. -/
theorem disp_effective_addr_witness :
    evalPure dispState
      (sh_il_get_effective_addr ⟨.SH_REG_INDIRECT_DISP, 9, 3⟩ (some 1)) =
      some (Val.bv 32 ((100 + 3 * 1) % 2 ^ 32)) ∧
    evalPure dispState
      (sh_il_get_effective_addr ⟨.SH_REG_INDIRECT_DISP, 9, 3⟩ (some 4)) =
      none :=
  ⟨(disp_effective_addr dispState false false 9 3 100 Pure.pnull (by decide)
      rfl rfl rfl (by decide)).2.2.1,
   (disp_effective_addr dispState false false 9 3 100 Pure.pnull (by decide)
      rfl rfl rfl (by decide)).2.2.2.2.2.2.2.2⟩

/-- Claim C10: the claim states that writing to an immediate-mode
parameter yields no effect.  The code logs the error but falls through
into the store path, so it returns a STOREW effect whose address is NULL
(`sh_il_get_effective_addr` has no expression for immediates) rather than
no effect. -/
theorem set_param_immediate_emits_store (j k : Nat) (v : Pure)
    (scal : Option Nat) :
    sh_il_set_param ⟨.SH_IMM_U, j, k⟩ v scal = Effect.storew Pure.pnull v ∧
    sh_il_set_param ⟨.SH_IMM_S, j, k⟩ v scal = Effect.storew Pure.pnull v ∧
    Effect.storew Pure.pnull v ≠ Effect.enull := by
  refine ⟨rfl, rfl, by simp⟩

set_option maxHeartbeats 1000000

/-- Claim C2: for every DIV1 on direct-register parameters Rm, Rn, the
lifted effect realizes exactly the reference non-restoring division step
`div1_reference`: save old Q; Q := MSB(Rn); Rn := (Rn << 1) | T; per
(old Q, M) subtract (Q0/M0, Q1/M1) or add (Q0/M1, Q1/M0) the divisor;
update Q from the carry/borrow direction of that step; T := (Q == M). -/
theorem div1_lifts_nonrestoring_step (s : State) (md rb : Bool)
    (m n scal vn vm : Nat) (q mf t : Bool)
    (hm : m < 16) (hn : n < 16) (hmn : m ≠ n)
    (hd : s.globals "sr_d" = some (Val.b md))
    (hr : s.globals "sr_r" = some (Val.b rb))
    (hq : s.globals "sr_q" = some (Val.b q))
    (hmf : s.globals "sr_m" = some (Val.b mf))
    (ht : s.globals "sr_t" = some (Val.b t))
    (hvn : s.globals (sh_reg_var n (md && rb)) = some (Val.bv 32 vn))
    (hvm : s.globals (sh_reg_var m (md && rb)) = some (Val.bv 32 vm)) :
    (exec s (sh_il_div1
        ⟨⟨.SH_REG_DIRECT, m, 0⟩, ⟨.SH_REG_DIRECT, n, 0⟩, scal⟩)).map
      (fun s1 => (s1.globals (sh_reg_var n (md && rb)),
        s1.globals "sr_q", s1.globals "sr_t")) =
    some (some (Val.bv 32 (div1_reference vn vm q mf t).1),
      some (Val.b (div1_reference vn vm q mf t).2.1),
      some (Val.b (div1_reference vn vm q mf t).2.2)) := by
  obtain ⟨hNd, hNr, hNq, hNm, hNt, -, -, -, -, -⟩ :=
    sh_reg_var_ne_special n hn (md && rb)
  obtain ⟨hMd, hMr, hMq, hMm, hMt, -, -, -, -, -⟩ :=
    sh_reg_var_ne_special m hm (md && rb)
  have hMN : sh_reg_var m (md && rb) ≠ sh_reg_var n (md && rb) :=
    sh_reg_var_inj m hm n hn (md && rb) hmn
  have hNM := Ne.symm hMN
  have hNd2 := Ne.symm hNd
  have hNr2 := Ne.symm hNr
  have hNq2 := Ne.symm hNq
  have hNm2 := Ne.symm hNm
  have hNt2 := Ne.symm hNt
  have hMd2 := Ne.symm hMd
  have hMr2 := Ne.symm hMr
  have hMq2 := Ne.symm hMq
  have hMm2 := Ne.symm hMm
  have hMt2 := Ne.symm hMt
  have hsetn : ∀ p sc,
      sh_il_set_param ⟨SHAddrMode.SH_REG_DIRECT, n, 0⟩ p sc =
        sh_il_set_reg n p :=
    fun p sc => set_param_direct_eq n 0 p sc hn
  simp only [sh_il_div1, SEQ2, SEQ3, SEQ4, sh_il_get_pure_param,
    sh_il_set_pure_param, SHOp.paramAt, get_param_direct_eq, hsetn,
    show (1 : Nat) = 0 ↔ False by simp, if_false, if_true, ite_true,
    ite_false, reduceIte]
  cases hqb : q <;> cases hmb : mf <;> cases htb : Nat.testBit vn 31 <;>
    simp [div1_reference, exec, evalPure, vIte, eIte, vAnd, vOr, vCast,
      vMsb, vShiftL, vSub, vAdd, vUgt, vUlt, vIsZero, vEq, vNonZero,
      updateG_globals, updateL_globals, updateG_locals, updateL_locals,
      evalPure_get_reg, exec_set_reg, hn, hm, hd, hr, hq, hmf, ht, hvn,
      hvm, hNd, hNr, hNq, hNm, hNt, hMd, hMr, hMq, hMm, hMt, hMN, hNM,
      hNd2, hNr2, hNq2, hNm2, hNt2, hMd2, hMr2, hMq2, hMm2, hMt2, htb,
      hqb, hmb]


/-- Witness for C2: m = r1, n = r2 (banked, SR.MD = SR.RB = 1), Rn = 16,
Rm = 3, Q = M = T = 0. -/
theorem div1_lifts_nonrestoring_step_witness :
    (exec div1State (sh_il_div1
        ⟨⟨.SH_REG_DIRECT, 1, 0⟩, ⟨.SH_REG_DIRECT, 2, 0⟩, 3⟩)).map
      (fun s1 => (s1.globals (sh_reg_var 2 (true && true)),
        s1.globals "sr_q", s1.globals "sr_t")) =
    some (some (Val.bv 32 (div1_reference 16 3 false false false).1),
      some (Val.b (div1_reference 16 3 false false false).2.1),
      some (Val.b (div1_reference 16 3 false false false).2.2)) :=
  div1_lifts_nonrestoring_step div1State true true 1 2 3 16 3
    false false false (by decide) (by decide) (by decide)
    rfl rfl rfl rfl rfl rfl rfl

end ShIL
